import Mathlib

/-!
Shallow embedding of the akila proxy checker (src/proxy.py and src/proxy2.py).

Python strings that the program manipulates character-wise (the proxy list
file contents and the loaded proxy addresses) are modelled as `List Char`
(`PyStr`).  The network is modelled by an oracle `probe : String → ProbeResult`
giving, for each target URL, either an HTTP response with a status code or
one of the exception kinds the code catches.  Note the `requests` exception
hierarchy: `SSLError`, `ProxyError` and `ConnectTimeout` are all subclasses of
`requests.exceptions.ConnectionError`, which is why in `proxy.py` (whose
`except` clauses are ConnectTimeout, ConnectionError, ProxyError, Exception)
an `SSLError` is caught by the `ConnectionError` clause and breaks the loop.
The worker pool's `as_completed` iteration order is modelled as an explicit
`order` parameter, constrained in theorems to be a permutation of the
submitted proxies.
-/

namespace Akila

/-- Python strings manipulated character-wise. -/
abbrev PyStr := List Char

/-- Outcome of one `requests.get` call through the proxy: a response with a
status code, or one of the exception kinds distinguished by the code.
`otherError` carries the exception type name (used in `proxy2.py` error
messages). -/
inductive ProbeResult where
  | ok (status : Nat)
  | sslError
  | proxyError
  | connectTimeout
  | connectionError
  | otherError (typeName : String)
deriving DecidableEq, Repr

/-- The four hardcoded test URLs of `check_proxy_simple` (src/proxy.py lines 17-22). -/
def test_urls : List String :=
  ["http://httpbin.org/ip",
   "https://api.ipify.org?format=json",
   "http://icanhazip.com",
   "https://checkip.amazonaws.com"]

/-- The three hardcoded test sites of `check_proxy_thorough` (src/proxy2.py lines 23-27). -/
def test_sites : List (String × String) :=
  [("https://www.google.com", "Google"),
   ("https://www.wikipedia.org", "Wikipedia"),
   ("http://example.com", "Example.com")]

/-- The `for url in test_urls` loop of `check_proxy_simple` (src/proxy.py
lines 24-55), instrumented with the list of URLs actually requested.
Status 200 returns `(True, proxy)`; `ConnectTimeout`, `ConnectionError`
(hence also its subclasses `SSLError` and `ProxyError`) `break` out of the
loop to the final `return False, proxy`; any other exception or a non-200
status `continue`s with the next URL. -/
def simpleGo (probe : String → ProbeResult) (proxy : PyStr) :
    List String → (Bool × PyStr) × List String
  | [] => ((false, proxy), [])
  | url :: rest =>
    match probe url with
    | ProbeResult.ok s =>
        if s = 200 then ((true, proxy), [url])
        else
          let r := simpleGo probe proxy rest
          (r.1, url :: r.2)
    | ProbeResult.connectTimeout => ((false, proxy), [url])
    | ProbeResult.connectionError => ((false, proxy), [url])
    | ProbeResult.proxyError => ((false, proxy), [url])
    | ProbeResult.sslError => ((false, proxy), [url])
    | ProbeResult.otherError _ =>
        let r := simpleGo probe proxy rest
        (r.1, url :: r.2)

/-- `check_proxy_simple` (src/proxy.py lines 6-55): the returned
`(is_working, proxy)` pair. -/
def check_proxy_simple (probe : String → ProbeResult) (proxy : PyStr) : Bool × PyStr :=
  (simpleGo probe proxy test_urls).1

/-- The URLs `check_proxy_simple` actually issues requests for, in order. -/
def simpleTrace (probe : String → ProbeResult) (proxy : PyStr) : List String :=
  (simpleGo probe proxy test_urls).2

/-- The `results` dict of `check_proxy_thorough` (src/proxy2.py line 29). -/
structure ThoroughResults where
  passed : Nat
  failed : Nat
  errors : List String
deriving DecidableEq, Repr

/-- One iteration of the `for url, name in test_sites` loop of
`check_proxy_thorough` (src/proxy2.py lines 31-64): status 200 increments
`passed`, everything else increments `failed` and appends an error message. -/
def stepSite (probe : String → ProbeResult) (url name : String)
    (acc : ThoroughResults) : ThoroughResults :=
  match probe url with
  | ProbeResult.ok s =>
      if s = 200 then ⟨acc.passed + 1, acc.failed, acc.errors⟩
      else ⟨acc.passed, acc.failed + 1, acc.errors ++ [name ++ ": Status " ++ toString s]⟩
  | ProbeResult.sslError =>
      ⟨acc.passed, acc.failed + 1, acc.errors ++ [name ++ ": SSL Error"]⟩
  | ProbeResult.proxyError =>
      ⟨acc.passed, acc.failed + 1, acc.errors ++ [name ++ ": Proxy Error"]⟩
  | ProbeResult.connectTimeout =>
      ⟨acc.passed, acc.failed + 1, acc.errors ++ [name ++ ": Timeout"]⟩
  | ProbeResult.connectionError =>
      ⟨acc.passed, acc.failed + 1, acc.errors ++ [name ++ ": Connection Failed"]⟩
  | ProbeResult.otherError tn =>
      ⟨acc.passed, acc.failed + 1, acc.errors ++ [name ++ ": " ++ tn]⟩

/-- The whole site loop of `check_proxy_thorough`, folding `stepSite` over a
site list from an accumulator. -/
def runSitesFrom (probe : String → ProbeResult) :
    List (String × String) → ThoroughResults → ThoroughResults
  | [], acc => acc
  | (url, name) :: rest, acc => runSitesFrom probe rest (stepSite probe url name acc)

/-- `check_proxy_thorough` (src/proxy2.py lines 7-76): runs the site loop from
`{passed: 0, failed: 0, errors: []}` and is working iff it passed ALL tests
(`results['passed'] == len(test_sites) and results['failed'] == 0`). -/
def check_proxy_thorough (probe : String → ProbeResult) (proxy : PyStr) :
    Bool × PyStr × ThoroughResults :=
  let results := runSitesFrom probe test_sites ⟨0, 0, []⟩
  let is_working := results.passed == test_sites.length && results.failed == 0
  (is_working, proxy, results)

/-- The site loop instrumented with the URLs requested: every iteration of
the `for url, name in test_sites` loop issues exactly one `requests.get`,
whatever its outcome. -/
def runSitesFromT (probe : String → ProbeResult) :
    List (String × String) → ThoroughResults → ThoroughResults × List String
  | [], acc => (acc, [])
  | (url, name) :: rest, acc =>
      let r := runSitesFromT probe rest (stepSite probe url name acc)
      (r.1, url :: r.2)

/-- The URLs `check_proxy_thorough` issues requests for, in order. -/
def thoroughTrace (probe : String → ProbeResult) : List String :=
  (runSitesFromT probe test_sites ⟨0, 0, []⟩).2

/-- Python `str.strip()` default whitespace (ASCII part). -/
def pyIsSpace (c : Char) : Bool :=
  c == ' ' || c == '\t' || c == '\n' || c == '\x0d' || c == '\x0b' || c == '\x0c'

/-- Python `str.rstrip()`: drop trailing whitespace. -/
def rstrip (l : PyStr) : PyStr := (l.reverse.dropWhile pyIsSpace).reverse

/-- Python `str.strip()`: drop leading and trailing whitespace. -/
def strip (l : PyStr) : PyStr := (rstrip l).dropWhile pyIsSpace

/-- Reattach the newline terminators after splitting file contents on a
newline: Python file iteration yields each line including its trailing
newline, and yields no final empty line when the contents end in a newline. -/
def attachNl : List PyStr → List PyStr
  | [] => []
  | [p] => if p = [] then [] else [p]
  | p :: q :: rest => (p ++ ['\n']) :: attachNl (q :: rest)

/-- Python `for line in f`: the sequence of lines of the file contents,
each keeping its newline terminator (except possibly the last). -/
def splitLines (c : PyStr) : List PyStr := attachNl (c.splitOn '\n')

/-- The loader `[line.strip() for line in f if line.strip()]`
(src/proxy.py line 65 and src/proxy2.py line 86). -/
def loadProxies (c : PyStr) : List PyStr :=
  ((splitLines c).map strip).filter (fun l => decide (l ≠ []))

/-- What the spec says the loader produces: the file's non-blank lines with
surrounding whitespace stripped, in file order (lines here are the pieces
between newlines, without terminators). -/
def loadProxiesSpec (c : PyStr) : List PyStr :=
  ((c.splitOn '\n').map strip).filter (fun l => decide (l ≠ []))

/-- Result of one `main` run: proxies loaded from the input file, the
collected working list, and the contents written to the output file
(`none` when nothing is written). -/
structure MainResult where
  loaded : List PyStr
  working : List PyStr
  output : Option PyStr
deriving DecidableEq, Repr

/-- `main` of src/proxy.py (lines 57-119) after a successful file read:
`c` is the contents of proxies.txt, `probe` gives each proxy's network
behaviour, `order` is the order in which `as_completed` yields the futures.
Each completed future's `(is_working, proxy)` appends `proxy` to
`working_proxies` when `is_working`; a non-empty working list is written to
working_proxies.txt one proxy per line. -/
def proxy_main (c : PyStr) (probe : PyStr → String → ProbeResult)
    (order : List PyStr) : MainResult :=
  let loaded := loadProxies c
  let working := order.filter (fun p => (check_proxy_simple (probe p) p).1)
  let output :=
    if working.isEmpty then none
    else some (List.flatten (working.map (fun p => p ++ ['\n'])))
  ⟨loaded, working, output⟩

/-- `main` of src/proxy2.py (lines 78-139) after a successful file read,
analogous to `proxy_main` with `check_proxy_thorough` and
verified_working_proxies.txt. -/
def proxy2_main (c : PyStr) (probe : PyStr → String → ProbeResult)
    (order : List PyStr) : MainResult :=
  let loaded := loadProxies c
  let working := order.filter (fun p => (check_proxy_thorough (probe p) p).1)
  let output :=
    if working.isEmpty then none
    else some (List.flatten (working.map (fun p => p ++ ['\n'])))
  ⟨loaded, working, output⟩

/-- The success-rate expression `len(working_proxies)/total*100`
(src/proxy.py line 97, src/proxy2.py line 116): Python raises
ZeroDivisionError when `total` is zero, modelled as `none`. -/
def successRate (working total : Nat) : Option ℚ :=
  if total = 0 then none else some ((working : ℚ) / (total : ℚ) * 100)

/-- `max_workers` of the simple checker's pool (src/proxy.py line 79). -/
def max_workers_simple : Nat := 30

/-- `max_workers` of the thorough checker's pool (src/proxy2.py line 100). -/
def max_workers_thorough : Nat := 10

/-- A probe outcome that is an exception (any raised exception kind). -/
def isException : ProbeResult → Bool
  | ProbeResult.ok _ => false
  | _ => true

/-- A site probe that passed: response with status 200. -/
def sitePass (probe : String → ProbeResult) (site : String × String) : Bool :=
  decide (probe site.1 = ProbeResult.ok 200)

/-! ## Supporting lemmas -/

theorem strip_nil : strip [] = [] := rfl

theorem strip_append_newline (p : PyStr) : strip (p ++ ['\n']) = strip p := by
  have h : pyIsSpace '\n' = true := rfl
  simp [strip, rstrip, List.reverse_append, List.dropWhile_cons, h]

theorem attachNl_strip_filter (ps : List PyStr) :
    ((attachNl ps).map strip).filter (fun l => decide (l ≠ [])) =
      (ps.map strip).filter (fun l => decide (l ≠ [])) := by
  induction ps with
  | nil => rfl
  | cons p rest ih =>
    cases rest with
    | nil =>
      by_cases hp : p = []
      · simp [attachNl, hp, strip_nil]
      · simp [attachNl, hp]
    | cons q r2 =>
      simp only [attachNl, List.map_cons, List.filter_cons, strip_append_newline] at ih ⊢
      rw [ih]

theorem simpleGo_all_exception (probe : String → ProbeResult) (proxy : PyStr)
    (urls : List String) (h : ∀ u ∈ urls, isException (probe u) = true) :
    (simpleGo probe proxy urls).1 = (false, proxy) := by
  induction urls with
  | nil => rfl
  | cons url rest ih =>
    have hu := h url (by simp)
    have hrest : ∀ u ∈ rest, isException (probe u) = true := fun u hm => h u (by simp [hm])
    cases hpr : probe url with
    | ok s => rw [hpr] at hu; simp [isException] at hu
    | otherError t => simpa [simpleGo, hpr] using ih hrest
    | sslError => simp [simpleGo, hpr]
    | proxyError => simp [simpleGo, hpr]
    | connectTimeout => simp [simpleGo, hpr]
    | connectionError => simp [simpleGo, hpr]

theorem runSitesFrom_passed (probe : String → ProbeResult)
    (sites : List (String × String)) (acc : ThoroughResults) :
    (runSitesFrom probe sites acc).passed = acc.passed + sites.countP (sitePass probe) := by
  induction sites generalizing acc with
  | nil => simp [runSitesFrom]
  | cons s rest ih =>
    obtain ⟨url, name⟩ := s
    rw [show runSitesFrom probe ((url, name) :: rest) acc =
          runSitesFrom probe rest (stepSite probe url name acc) from rfl, ih]
    cases hpr : probe url with
    | ok s' =>
      by_cases hs : s' = 200
      · simp [stepSite, hpr, hs, sitePass, List.countP_cons]
        omega
      · simp [stepSite, hpr, hs, sitePass, List.countP_cons]
    | sslError => simp [stepSite, hpr, sitePass, List.countP_cons]
    | proxyError => simp [stepSite, hpr, sitePass, List.countP_cons]
    | connectTimeout => simp [stepSite, hpr, sitePass, List.countP_cons]
    | connectionError => simp [stepSite, hpr, sitePass, List.countP_cons]
    | otherError t => simp [stepSite, hpr, sitePass, List.countP_cons]

theorem runSitesFrom_failed (probe : String → ProbeResult)
    (sites : List (String × String)) (acc : ThoroughResults) :
    (runSitesFrom probe sites acc).failed =
      acc.failed + sites.countP (fun s => !sitePass probe s) := by
  induction sites generalizing acc with
  | nil => simp [runSitesFrom]
  | cons s rest ih =>
    obtain ⟨url, name⟩ := s
    rw [show runSitesFrom probe ((url, name) :: rest) acc =
          runSitesFrom probe rest (stepSite probe url name acc) from rfl, ih]
    cases hpr : probe url with
    | ok s' =>
      by_cases hs : s' = 200
      · simp [stepSite, hpr, hs, sitePass, List.countP_cons]
      · simp [stepSite, hpr, hs, sitePass, List.countP_cons]
        omega
    | sslError => simp [stepSite, hpr, sitePass, List.countP_cons]; omega
    | proxyError => simp [stepSite, hpr, sitePass, List.countP_cons]; omega
    | connectTimeout => simp [stepSite, hpr, sitePass, List.countP_cons]; omega
    | connectionError => simp [stepSite, hpr, sitePass, List.countP_cons]; omega
    | otherError t => simp [stepSite, hpr, sitePass, List.countP_cons]; omega

theorem runSitesFromT_trace (probe : String → ProbeResult)
    (sites : List (String × String)) (acc : ThoroughResults) :
    (runSitesFromT probe sites acc).2 = sites.map Prod.fst := by
  induction sites generalizing acc with
  | nil => rfl
  | cons s rest ih =>
    obtain ⟨url, name⟩ := s
    simp [runSitesFromT, ih]

theorem simpleGo_cons_200 (probe : String → ProbeResult) (proxy : PyStr)
    (url : String) (rest : List String) (h : probe url = ProbeResult.ok 200) :
    simpleGo probe proxy (url :: rest) = ((true, proxy), [url]) := by
  simp only [simpleGo, h]
  rfl

theorem simpleGo_cons_break (probe : String → ProbeResult) (proxy : PyStr)
    (url : String) (rest : List String)
    (h : probe url = ProbeResult.connectTimeout ∨ probe url = ProbeResult.connectionError ∨
         probe url = ProbeResult.proxyError ∨ probe url = ProbeResult.sslError) :
    simpleGo probe proxy (url :: rest) = ((false, proxy), [url]) := by
  rcases h with h | h | h | h <;> simp only [simpleGo, h]

theorem simpleGo_cons_continue (probe : String → ProbeResult) (proxy : PyStr)
    (url : String) (rest : List String)
    (h : (∃ s, probe url = ProbeResult.ok s ∧ s ≠ 200) ∨
         (∃ t, probe url = ProbeResult.otherError t)) :
    simpleGo probe proxy (url :: rest) =
      ((simpleGo probe proxy rest).1, url :: (simpleGo probe proxy rest).2) := by
  rcases h with ⟨s, hpr, hs⟩ | ⟨t, hpr⟩
  · simp only [simpleGo, hpr]
    rw [if_neg hs]
  · simp only [simpleGo, hpr]

theorem simpleGo_trace_take (probe : String → ProbeResult) (proxy : PyStr)
    (urls : List String) (hne : urls ≠ []) :
    ∃ k, 1 ≤ k ∧ k ≤ urls.length ∧ (simpleGo probe proxy urls).2 = urls.take k := by
  induction urls with
  | nil => exact absurd rfl hne
  | cons url rest ih =>
    cases hpr : probe url with
    | ok s =>
      by_cases hs : s = 200
      · subst hs
        exact ⟨1, le_refl 1, by simp, by rw [simpleGo_cons_200 probe proxy url rest hpr]; simp⟩
      · cases rest with
        | nil =>
          refine ⟨1, le_refl 1, by simp, ?_⟩
          rw [simpleGo_cons_continue probe proxy url [] (Or.inl ⟨s, hpr, hs⟩)]
          simp [simpleGo]
        | cons u2 r2 =>
          obtain ⟨k, hk1, hk2, hk3⟩ := ih (by simp)
          refine ⟨k + 1, by omega, by simpa using hk2, ?_⟩
          rw [simpleGo_cons_continue probe proxy url (u2 :: r2) (Or.inl ⟨s, hpr, hs⟩)]
          simp [hk3]
    | otherError t =>
      cases rest with
      | nil =>
        refine ⟨1, le_refl 1, by simp, ?_⟩
        rw [simpleGo_cons_continue probe proxy url [] (Or.inr ⟨t, hpr⟩)]
        simp [simpleGo]
      | cons u2 r2 =>
        obtain ⟨k, hk1, hk2, hk3⟩ := ih (by simp)
        refine ⟨k + 1, by omega, by simpa using hk2, ?_⟩
        rw [simpleGo_cons_continue probe proxy url (u2 :: r2) (Or.inr ⟨t, hpr⟩)]
        simp [hk3]
    | sslError =>
      exact ⟨1, le_refl 1, by simp,
        by rw [simpleGo_cons_break probe proxy url rest (by simp [hpr])]; simp⟩
    | proxyError =>
      exact ⟨1, le_refl 1, by simp,
        by rw [simpleGo_cons_break probe proxy url rest (by simp [hpr])]; simp⟩
    | connectTimeout =>
      exact ⟨1, le_refl 1, by simp,
        by rw [simpleGo_cons_break probe proxy url rest (by simp [hpr])]; simp⟩
    | connectionError =>
      exact ⟨1, le_refl 1, by simp,
        by rw [simpleGo_cons_break probe proxy url rest (by simp [hpr])]; simp⟩

theorem countP_bool_split {α : Type} (l : List α) (f : α → Bool) :
    l.countP f + l.countP (fun a => !f a) = l.length := by
  induction l with
  | nil => rfl
  | cons a t ih => cases hfa : f a <;> simp [List.countP_cons, hfa] <;> omega

theorem proxy_main_working (c : PyStr) (probe : PyStr → String → ProbeResult)
    (order : List PyStr) :
    (proxy_main c probe order).working =
      order.filter (fun p => (check_proxy_simple (probe p) p).1) := rfl

theorem proxy2_main_working (c : PyStr) (probe : PyStr → String → ProbeResult)
    (order : List PyStr) :
    (proxy2_main c probe order).working =
      order.filter (fun p => (check_proxy_thorough (probe p) p).1) := rfl

theorem proxy_main_output (c : PyStr) (probe : PyStr → String → ProbeResult)
    (order : List PyStr) :
    (proxy_main c probe order).output =
      (if (proxy_main c probe order).working.isEmpty then none
       else some (List.flatten ((proxy_main c probe order).working.map
         (fun p => p ++ ['\n'])))) := rfl

theorem proxy2_main_output (c : PyStr) (probe : PyStr → String → ProbeResult)
    (order : List PyStr) :
    (proxy2_main c probe order).output =
      (if (proxy2_main c probe order).working.isEmpty then none
       else some (List.flatten ((proxy2_main c probe order).working.map
         (fun p => p ++ ['\n'])))) := rfl

theorem collect_filter_perm (loaded o : List PyStr) (f : PyStr → Bool) (h : o.Perm loaded) :
    (o.filter f).Perm (loaded.filter f) ∧
      (∀ p, p ∈ o.filter f ↔ p ∈ loaded ∧ f p = true) ∧
      (loaded.Nodup → (o.filter f).Nodup) := by
  refine ⟨h.filter f, ?_, ?_⟩
  · intro p
    rw [List.mem_filter, h.mem_iff]
  · intro hnd
    exact (h.symm.nodup hnd).filter f

/-! ## Claims -/

/-- C1: a proxy whose every probe request returns HTTP status 200 is
classified working: `check_proxy_simple` returns `(True, proxy)` and
`check_proxy_thorough` returns `is_working = True`. -/
theorem all_200_marked_working (probeS probeT : String → ProbeResult) (p1 p2 : PyStr)
    (hS : ∀ u ∈ test_urls, probeS u = ProbeResult.ok 200)
    (hT : ∀ s ∈ test_sites, probeT s.1 = ProbeResult.ok 200) :
    check_proxy_simple probeS p1 = (true, p1) ∧
      (check_proxy_thorough probeT p2).1 = true := by
  constructor
  · have h1 : probeS "http://httpbin.org/ip" = ProbeResult.ok 200 :=
      hS _ (by simp [test_urls])
    unfold check_proxy_simple test_urls
    rw [simpleGo_cons_200 _ _ _ _ h1]
  · have hcount : test_sites.countP (sitePass probeT) = test_sites.length := by
      rw [List.countP_eq_length]
      intro s hs
      simp [sitePass, hT s hs]
    have hfail : test_sites.countP (fun s => !sitePass probeT s) = 0 := by
      rw [List.countP_eq_zero]
      intro s hs
      simp [sitePass, hT s hs]
    simp [check_proxy_thorough, runSitesFrom_passed, runSitesFrom_failed, hcount, hfail]

/-- C1 witness: the all-200 oracle marks concrete proxies working. -/
theorem all_200_marked_working_witness :
    check_proxy_simple (fun _ => ProbeResult.ok 200) ("1.2.3.4:80".toList)
        = (true, "1.2.3.4:80".toList) ∧
      (check_proxy_thorough (fun _ => ProbeResult.ok 200) ("5.6.7.8:3128".toList)).1 = true :=
  all_200_marked_working _ _ _ _ (fun _ _ => rfl) (fun _ _ => rfl)

/-- C2: a proxy whose every probe request raises an exception (of any kind)
is classified failed by both checkers; the checkers are total, so no
exception propagates to the pool runner. -/
theorem all_exception_marked_failed (probeS probeT : String → ProbeResult) (p1 p2 : PyStr)
    (hS : ∀ u ∈ test_urls, isException (probeS u) = true)
    (hT : ∀ s ∈ test_sites, isException (probeT s.1) = true) :
    check_proxy_simple probeS p1 = (false, p1) ∧
      (check_proxy_thorough probeT p2).1 = false := by
  constructor
  · exact simpleGo_all_exception probeS p1 test_urls hS
  · have hcount : test_sites.countP (sitePass probeT) = 0 := by
      rw [List.countP_eq_zero]
      intro s hs
      have hx := hT s hs
      simp only [sitePass, decide_eq_true_eq]
      intro heq
      rw [heq] at hx
      simp [isException] at hx
    have hw : (check_proxy_thorough probeT p2).1
        = ((runSitesFrom probeT test_sites ⟨0, 0, []⟩).passed == test_sites.length
            && (runSitesFrom probeT test_sites ⟨0, 0, []⟩).failed == 0) := rfl
    rw [hw, runSitesFrom_passed, hcount]
    simp [show test_sites.length = 3 from rfl]

/-- C2 witness: always-timeout and always-other-exception oracles mark
concrete proxies failed. -/
theorem all_exception_marked_failed_witness :
    check_proxy_simple (fun _ => ProbeResult.connectTimeout) ("10.0.0.1:8080".toList)
        = (false, "10.0.0.1:8080".toList) ∧
      (check_proxy_thorough (fun _ => ProbeResult.otherError "ValueError")
        ("10.0.0.2:8080".toList)).1 = false :=
  all_exception_marked_failed _ _ _ _ (fun _ _ => rfl) (fun _ _ => rfl)

/-- C3: whatever order the pool completes the probes in, `main` collects
exactly the loaded proxies whose probe passed (one occurrence per passing
loaded proxy, with no duplicates when the loaded list has none), and a
non-empty working list is written to the output file as one proxy per line
with nothing else in the file. Holds for both programs. -/
theorem main_collects_exactly_passing (c : PyStr)
    (probeS probeT : PyStr → String → ProbeResult) (o1 o2 : List PyStr)
    (h1 : o1.Perm (loadProxies c)) (h2 : o2.Perm (loadProxies c)) :
    ((proxy_main c probeS o1).working.Perm
        ((loadProxies c).filter (fun p => (check_proxy_simple (probeS p) p).1)) ∧
      (∀ p, p ∈ (proxy_main c probeS o1).working ↔
        p ∈ loadProxies c ∧ (check_proxy_simple (probeS p) p).1 = true) ∧
      ((loadProxies c).Nodup → (proxy_main c probeS o1).working.Nodup) ∧
      ((proxy_main c probeS o1).working ≠ [] →
        (proxy_main c probeS o1).output =
          some (List.flatten ((proxy_main c probeS o1).working.map (fun p => p ++ ['\n']))))) ∧
    ((proxy2_main c probeT o2).working.Perm
        ((loadProxies c).filter (fun p => (check_proxy_thorough (probeT p) p).1)) ∧
      (∀ p, p ∈ (proxy2_main c probeT o2).working ↔
        p ∈ loadProxies c ∧ (check_proxy_thorough (probeT p) p).1 = true) ∧
      ((loadProxies c).Nodup → (proxy2_main c probeT o2).working.Nodup) ∧
      ((proxy2_main c probeT o2).working ≠ [] →
        (proxy2_main c probeT o2).output =
          some (List.flatten ((proxy2_main c probeT o2).working.map (fun p => p ++ ['\n']))))) := by
  obtain ⟨ha1, ha2, ha3⟩ :=
    collect_filter_perm (loadProxies c) o1 (fun p => (check_proxy_simple (probeS p) p).1) h1
  obtain ⟨hb1, hb2, hb3⟩ :=
    collect_filter_perm (loadProxies c) o2 (fun p => (check_proxy_thorough (probeT p) p).1) h2
  refine ⟨⟨?_, ?_, ?_, ?_⟩, ⟨?_, ?_, ?_, ?_⟩⟩
  · rw [proxy_main_working]
    exact ha1
  · intro p
    rw [proxy_main_working]
    exact ha2 p
  · intro hnd
    rw [proxy_main_working]
    exact ha3 hnd
  · intro hne
    rw [proxy_main_output]
    rw [if_neg (by simpa [List.isEmpty_iff] using hne)]
  · rw [proxy2_main_working]
    exact hb1
  · intro p
    rw [proxy2_main_working]
    exact hb2 p
  · intro hnd
    rw [proxy2_main_working]
    exact hb3 hnd
  · intro hne
    rw [proxy2_main_output]
    rw [if_neg (by simpa [List.isEmpty_iff] using hne)]

/-- C3 witness: a two-line file whose single passing proxy is collected and
written out. -/
theorem main_collects_exactly_passing_witness :
    (proxy_main ("1.2.3.4:80\n \n".toList) (fun _ _ => ProbeResult.ok 200)
        (loadProxies ("1.2.3.4:80\n \n".toList))).working.Perm
      ((loadProxies ("1.2.3.4:80\n \n".toList)).filter
        (fun p => (check_proxy_simple ((fun (_ : PyStr) (_ : String) => ProbeResult.ok 200) p) p).1)) :=
  (main_collects_exactly_passing ("1.2.3.4:80\n \n".toList)
    (fun _ _ => ProbeResult.ok 200) (fun _ _ => ProbeResult.ok 200)
    (loadProxies ("1.2.3.4:80\n \n".toList)) (loadProxies ("1.2.3.4:80\n \n".toList))
    (List.Perm.refl _) (List.Perm.refl _)).1.1

/-- C6: the aggregation is completion-order independent: permuting the order
in which the per-proxy results complete permutes nothing but the order of
the working list — as a multiset (and hence as the set of output lines) it
is unchanged, for both programs. -/
theorem aggregation_order_independent (c : PyStr)
    (probeS probeT : PyStr → String → ProbeResult) (o1 o2 : List PyStr)
    (h : o1.Perm o2) :
    (proxy_main c probeS o1).working.Perm ((proxy_main c probeS o2).working) ∧
      (proxy2_main c probeT o1).working.Perm ((proxy2_main c probeT o2).working) ∧
      (proxy_main c probeS o1).working.toFinset = (proxy_main c probeS o2).working.toFinset ∧
      (proxy2_main c probeT o1).working.toFinset = (proxy2_main c probeT o2).working.toFinset := by
  have hs : (proxy_main c probeS o1).working.Perm ((proxy_main c probeS o2).working) := by
    rw [proxy_main_working, proxy_main_working]
    exact h.filter _
  have ht : (proxy2_main c probeT o1).working.Perm ((proxy2_main c probeT o2).working) := by
    rw [proxy2_main_working, proxy2_main_working]
    exact h.filter _
  exact ⟨hs, ht, List.toFinset_eq_of_perm _ _ hs, List.toFinset_eq_of_perm _ _ ht⟩

/-- C6 witness: swapping the completion order of two proxies leaves the
collected working list a permutation of itself. -/
theorem aggregation_order_independent_witness :
    (proxy_main ("a\nb\n".toList) (fun _ _ => ProbeResult.ok 200)
        ["b".toList, "a".toList]).working.Perm
      ((proxy_main ("a\nb\n".toList) (fun _ _ => ProbeResult.ok 200)
        ["a".toList, "b".toList]).working) :=
  (aggregation_order_independent ("a\nb\n".toList)
    (fun _ _ => ProbeResult.ok 200) (fun _ _ => ProbeResult.ok 200)
    ["b".toList, "a".toList] ["a".toList, "b".toList]
    (List.Perm.swap ("a".toList) ("b".toList) [])).1

/-- C4: the loader yields exactly the file's non-blank lines with surrounding
whitespace stripped, in file order; blank and whitespace-only lines
contribute nothing. -/
theorem loader_refines_spec (c : PyStr) : loadProxies c = loadProxiesSpec c := by
  unfold loadProxies loadProxiesSpec splitLines
  exact attachNl_strip_filter (c.splitOn '\n')

/-- C5: per proxy, `check_proxy_simple` requests a non-empty prefix of its 4
hardcoded URLs (so between 1 and 4 requests, each URL at most once), and
`check_proxy_thorough` requests exactly its 3 hardcoded sites, each once;
neither retries a URL. -/
theorem probe_request_bounds (probeS probeT : String → ProbeResult) (p1 : PyStr) :
    (∃ k, 1 ≤ k ∧ k ≤ 4 ∧ simpleTrace probeS p1 = test_urls.take k) ∧
      1 ≤ (simpleTrace probeS p1).length ∧
      (simpleTrace probeS p1).length ≤ 4 ∧
      (simpleTrace probeS p1).Nodup ∧
      thoroughTrace probeT = test_sites.map Prod.fst ∧
      (thoroughTrace probeT).length = 3 ∧
      (thoroughTrace probeT).Nodup := by
  obtain ⟨k, hk1, hk2, hk3⟩ :=
    simpleGo_trace_take probeS p1 test_urls (by simp [test_urls])
  have hlen : test_urls.length = 4 := rfl
  rw [hlen] at hk2
  have htrace : simpleTrace probeS p1 = test_urls.take k := hk3
  have htt : thoroughTrace probeT = test_sites.map Prod.fst :=
    runSitesFromT_trace probeT test_sites ⟨0, 0, []⟩
  refine ⟨⟨k, hk1, hk2, htrace⟩, ?_, ?_, ?_, htt, ?_, ?_⟩
  · rw [htrace, List.length_take, hlen]
    omega
  · rw [htrace, List.length_take, hlen]
    omega
  · rw [htrace]
    exact (List.take_sublist k test_urls).nodup (by decide)
  · rw [htt]
    rfl
  · rw [htt]
    decide

/-- C8: `check_proxy_thorough` marks a proxy working iff `passed = 3` and
`failed = 0`, equivalently iff every one of the 3 sites answered HTTP 200;
every site probe lands in exactly one of the two tallies, so
`passed + failed = 3`. -/
theorem thorough_pass_iff_all_200 (probe : String → ProbeResult) (proxy : PyStr) :
    (check_proxy_thorough probe proxy).2.2.passed
        + (check_proxy_thorough probe proxy).2.2.failed = test_sites.length ∧
      ((check_proxy_thorough probe proxy).1 = true ↔
        (check_proxy_thorough probe proxy).2.2.passed = 3 ∧
          (check_proxy_thorough probe proxy).2.2.failed = 0) ∧
      ((check_proxy_thorough probe proxy).1 = true ↔
        ∀ s ∈ test_sites, probe s.1 = ProbeResult.ok 200) := by
  have hres : (check_proxy_thorough probe proxy).2.2
      = runSitesFrom probe test_sites ⟨0, 0, []⟩ := rfl
  have hw : (check_proxy_thorough probe proxy).1
      = ((runSitesFrom probe test_sites ⟨0, 0, []⟩).passed == test_sites.length
          && (runSitesFrom probe test_sites ⟨0, 0, []⟩).failed == 0) := rfl
  have hsum := countP_bool_split test_sites (sitePass probe)
  have hlen : test_sites.length = 3 := rfl
  rw [hres, hw, runSitesFrom_passed, runSitesFrom_failed]
  simp only [Nat.zero_add]
  refine ⟨by omega, by simp [hlen], ?_⟩
  constructor
  · intro hb
    simp only [Bool.and_eq_true, beq_iff_eq] at hb
    have hall := List.countP_eq_length.mp hb.1
    intro s hs
    simpa [sitePass] using hall s hs
  · intro hall
    simp only [Bool.and_eq_true, beq_iff_eq]
    constructor
    · exact List.countP_eq_length.mpr (fun s hs => by simp [sitePass, hall s hs])
    · exact List.countP_eq_zero.mpr (fun s hs => by simp [sitePass, hall s hs])

/-- C9: `check_proxy_simple`'s URL loop short-circuits: a 200 response returns
`(True, proxy)` at once; a `ConnectTimeout`, `ConnectionError` (hence also its
`requests` subclasses `ProxyError` and `SSLError`) returns `(False, proxy)` at
once; a non-200 status or any other exception moves on to the next URL. -/
theorem simple_short_circuit (probe : String → ProbeResult) (proxy : PyStr)
    (url : String) (rest : List String) :
    check_proxy_simple probe proxy = (simpleGo probe proxy test_urls).1 ∧
      (probe url = ProbeResult.ok 200 →
        simpleGo probe proxy (url :: rest) = ((true, proxy), [url])) ∧
      (probe url = ProbeResult.connectTimeout ∨ probe url = ProbeResult.connectionError ∨
          probe url = ProbeResult.proxyError ∨ probe url = ProbeResult.sslError →
        simpleGo probe proxy (url :: rest) = ((false, proxy), [url])) ∧
      ((∃ s, probe url = ProbeResult.ok s ∧ s ≠ 200) ∨
          (∃ t, probe url = ProbeResult.otherError t) →
        simpleGo probe proxy (url :: rest) =
          ((simpleGo probe proxy rest).1, url :: (simpleGo probe proxy rest).2)) :=
  ⟨rfl, simpleGo_cons_200 probe proxy url rest, simpleGo_cons_break probe proxy url rest,
    simpleGo_cons_continue probe proxy url rest⟩

/-- C9 witness: a 200 on the first URL stops the loop immediately. -/
theorem simple_short_circuit_witness :
    simpleGo (fun _ => ProbeResult.ok 200) ("9.9.9.9:80".toList)
        ("http://httpbin.org/ip" :: ["https://api.ipify.org?format=json"])
      = ((true, "9.9.9.9:80".toList), ["http://httpbin.org/ip"]) :=
  (simple_short_circuit (fun _ => ProbeResult.ok 200) ("9.9.9.9:80".toList)
    "http://httpbin.org/ip" ["https://api.ipify.org?format=json"]).2.1 rfl

/-- C10: when the input file has at least one non-blank line, the loaded
total is strictly positive and the success-rate division is defined. -/
theorem success_rate_defined (c : PyStr) (w : Nat)
    (h : ∃ l ∈ splitLines c, strip l ≠ []) :
    0 < (loadProxies c).length ∧
      (successRate w (loadProxies c).length).isSome = true := by
  obtain ⟨l, hl, hs⟩ := h
  have hmem : strip l ∈ loadProxies c := by
    unfold loadProxies
    rw [List.mem_filter]
    refine ⟨List.mem_map_of_mem strip hl, by simpa using hs⟩
  have hpos : 0 < (loadProxies c).length :=
    List.length_pos.mpr (List.ne_nil_of_mem hmem)
  refine ⟨hpos, ?_⟩
  unfold successRate
  rw [if_neg (Nat.pos_iff_ne_zero.mp hpos)]
  rfl

/-- C10 witness: a one-proxy file gives a defined success rate. -/
theorem success_rate_defined_witness :
    0 < (loadProxies ("8.8.8.8:53\n".toList)).length ∧
      (successRate 1 (loadProxies ("8.8.8.8:53\n".toList)).length).isSome = true :=
  success_rate_defined _ 1 (by decide)

end Akila
